import Mathlib

/-!
Shallow embedding of `setup.py` of the ossobv/xpaste repository.

The module is a packaging descriptor.  Under the `__main__` guard it reads
`README.rst`, builds a `long_descriptions` list by a single append, and calls
`distutils.core.setup` with literal metadata plus the joined long description.

The filesystem is modelled as a map from file names to `Option String`:
`some contents` means the file exists and is UTF-8 readable with those
contents; `none` means the `open`/`read` fails (file absent or not decodable),
which Python surfaces as an exception aborting the build.
-/

namespace XPaste

/-- A filesystem: file name to readable UTF-8 contents, `none` when the
`open`/`read` of that name fails. -/
def FS : Type := String → Option String

/-- The single error kind: the readme file could not be opened/read. -/
inductive FileAccessError where
  | fileNotReadable (name : String)
  deriving DecidableEq, Repr

/-- The keyword arguments passed to `distutils.core.setup` in `setup.py`
(lines 9-39). -/
structure SetupArgs where
  name : String
  version : String
  scripts : List String
  data_files : List (String × List String)
  install_requires : List String
  description : String
  long_description : String
  author : String
  author_email : String
  url : String
  license : String
  platforms : List String
  classifiers : List String
  deriving DecidableEq, Repr

/-- `long_descriptions = []` followed by the single
`long_descriptions.append(file.read())` (lines 5-7): appending the readme
contents to the initially empty list. -/
def mkLongDescriptions (content : String) : List String :=
  ([] : List String) ++ [content]

/-- The literal keyword arguments of the `setup(...)` call (lines 9-39),
with `long_description = '\n\n\n'.join(long_descriptions)` (line 21). -/
def setupArgsOf (long_descriptions : List String) : SetupArgs :=
  { name := "xpaste"
    version := "1.6"
    scripts := ["xpaste"]
    data_files := [("share/doc/xpaste", ["LICENSE.txt", "README.rst"]),
                   ("share/man/man1", ["xpaste.1x"])]
    install_requires := ["python-xlib"]
    description := "paste text into X windows that don\x27t work with selections"
    long_description := String.intercalate "\n\n\n" long_descriptions
    author := "Walter Doekes, OSSO B.V."
    author_email := "wjdoekes+xpaste@osso.nl"
    url := "https://github.com/ossobv/xpaste"
    license := "GPLv3+"
    platforms := ["linux"]
    classifiers := [
      "Development Status :: 5 - Production/Stable",
      "Intended Audience :: End Users/Desktop",
      "License :: OSI Approved :: GNU General Public License v3 or later (GPLv3+)",
      "Operating System :: POSIX :: Linux",
      "Environment :: X11 Applications",
      "Programming Language :: Python :: 2.7",
      "Programming Language :: Python :: 3",
      "Topic :: Terminals :: Terminal Emulators/X Terminals",
      "Topic :: Utilities"] }

/-- The build operation under the `__main__` guard: open and read
`README.rst` (failing with a file-access error when that is impossible),
then call `setup` with the literal metadata and the joined description. -/
def build (fs : FS) : Except FileAccessError SetupArgs :=
  match fs "README.rst" with
  | none => .error (.fileNotReadable "README.rst")
  | some content => .ok (setupArgsOf (mkLongDescriptions content))

/-- Externally observable effects of executing the module. -/
inductive BuildEffect where
  | openFile (name : String)
  | readFile (name : String)
  | callSetup (args : SetupArgs)
  deriving DecidableEq, Repr

/-- Executing the module file: the whole body sits under
`if __name__ == '__main__':` (line 4), so nothing at all happens unless the
file runs as the main program.  Returns the ordered effect trace together
with the outcome. -/
def runModule (isMain : Bool) (fs : FS) :
    List BuildEffect × Except FileAccessError Unit :=
  if isMain then
    match fs "README.rst" with
    | none => ([.openFile "README.rst"],
               .error (.fileNotReadable "README.rst"))
    | some content =>
        ([.openFile "README.rst", .readFile "README.rst",
          .callSetup (setupArgsOf (mkLongDescriptions content))],
         .ok ())
  else ([], .ok ())

/-- Characters that would start a version constraint in a requirement
string (`>=`, `<=`, `==`, `!=`, `~=`). -/
def versionConstraintChars : List Char := ['<', '>', '=', '!', '~']

/-- Whether a requirement entry carries a version constraint. -/
def hasVersionConstraint (s : String) : Bool :=
  s.toList.any (fun c => versionConstraintChars.contains c)

/-! ### Step-relation model of the `with open(...)` block (lines 6-7)

For the resource claim the execution is modelled as a small-step relation on
states carrying the control phase and whether the readme file handle is open.
The `with` statement closes the handle both when the block completes and when
the read inside it raises. -/

/-- Control phase of the module body. -/
inductive Phase where
  | start
  | inBlock (content : String)
  | afterBlock (long_descriptions : List String)
  | done (args : SetupArgs)
  | failed
  deriving DecidableEq, Repr

/-- A build state: the control phase plus whether the `README.rst` handle is
currently open. -/
structure BuildSt where
  phase : Phase
  handleOpen : Bool
  deriving DecidableEq, Repr

/-- Small-step relation of the build, parametrised by the filesystem.
`open` acquires the handle; leaving the `with` block — normally or on a
failing read — releases it; `setup` is called after the block. -/
inductive Step (fs : FS) : BuildSt → BuildSt → Prop where
  | openOk (c : String) (h : fs "README.rst" = some c) :
      Step fs ⟨.start, false⟩ ⟨.inBlock c, true⟩
  | openFail (h : fs "README.rst" = none) :
      Step fs ⟨.start, false⟩ ⟨.failed, false⟩
  | readOk (c : String) :
      Step fs ⟨.inBlock c, true⟩ ⟨.afterBlock (mkLongDescriptions c), false⟩
  | readFail (c : String) :
      Step fs ⟨.inBlock c, true⟩ ⟨.failed, false⟩
  | callSetup (l : List String) :
      Step fs ⟨.afterBlock l, false⟩ ⟨.done (setupArgsOf l), false⟩

/-- Reachability from the initial state (no handle open, at the start). -/
def Reachable (fs : FS) (st : BuildSt) : Prop :=
  Relation.ReflTransGen (Step fs) ⟨.start, false⟩ st

/-- States lying after the `with` block, on the success path
(`afterBlock`, `done`) or on the error path (`failed`). -/
def PastBlock : Phase → Prop
  | .afterBlock _ => True
  | .done _ => True
  | .failed => True
  | _ => False

/-- Inversion: a successful build means the readme was readable and the
arguments are the literal ones with the readme contents joined in. -/
theorem build_ok_inv (fs : FS) (args : SetupArgs) (h : build fs = .ok args) :
    ∃ c, fs "README.rst" = some c ∧ args = setupArgsOf (mkLongDescriptions c) := by
  cases hfs : fs "README.rst" with
  | none => simp [build, hfs] at h
  | some c =>
      simp [build, hfs] at h
      exact ⟨c, rfl, h.symm⟩

/-- C1: for every content of `README.rst`, the `long_description` passed to
`setup` equals that content verbatim — joining the one-element list with
the separator is the identity on the file contents. -/
theorem long_description_roundtrip (fs : FS) (content : String)
    (h : fs "README.rst" = some content) :
    ∃ args, build fs = .ok args ∧ args.long_description = content :=
  ⟨setupArgsOf (mkLongDescriptions content), by simp [build, h], rfl⟩

theorem long_description_roundtrip_witness :
    (fun _ => some "xpaste readme") "README.rst" = some "xpaste readme" ∧
    ∃ args, build (fun _ => some "xpaste readme") = .ok args ∧
      args.long_description = "xpaste readme" :=
  ⟨rfl, long_description_roundtrip _ "xpaste readme" rfl⟩

/-- C2: when `README.rst` cannot be opened, the build raises the
file-access error and `setup` is never invoked — no `callSetup` effect
appears in the execution trace, so no metadata object is produced. -/
theorem build_fails_without_readme (fs : FS)
    (h : fs "README.rst" = none) :
    build fs = .error (.fileNotReadable "README.rst") ∧
    ∀ args, BuildEffect.callSetup args ∉ (runModule true fs).1 := by
  refine ⟨by simp [build, h], fun args => ?_⟩
  simp [runModule, h]

theorem build_fails_without_readme_witness :
    (fun _ => (none : Option String)) "README.rst" = none ∧
    (build (fun _ => none) = .error (.fileNotReadable "README.rst") ∧
     ∀ args, BuildEffect.callSetup args ∉ (runModule true (fun _ => none)).1) :=
  ⟨rfl, build_fails_without_readme _ rfl⟩

/-- C3: in a checkout where `README.rst`, `LICENSE.txt` and `xpaste.1x`
exist, the build succeeds, and the artifact lists exactly the script
`xpaste`, the data files `LICENSE.txt` and `README.rst` under
`share/doc/xpaste`, and `xpaste.1x` under `share/man/man1`. -/
theorem build_artifact_manifest (fs : FS)
    (hr : ∃ c, fs "README.rst" = some c)
    (_hl : ∃ c, fs "LICENSE.txt" = some c)
    (_hm : ∃ c, fs "xpaste.1x" = some c) :
    ∃ args, build fs = .ok args ∧
      args.scripts = ["xpaste"] ∧
      args.data_files = [("share/doc/xpaste", ["LICENSE.txt", "README.rst"]),
                         ("share/man/man1", ["xpaste.1x"])] := by
  obtain ⟨c, hc⟩ := hr
  exact ⟨setupArgsOf (mkLongDescriptions c), by simp [build, hc], rfl, rfl⟩

theorem build_artifact_manifest_witness :
    (∃ c, (fun _ => some "x") "README.rst" = some c) ∧
    ∃ args, build (fun _ => some "x") = .ok args ∧
      args.scripts = ["xpaste"] ∧
      args.data_files = [("share/doc/xpaste", ["LICENSE.txt", "README.rst"]),
                         ("share/man/man1", ["xpaste.1x"])] :=
  ⟨⟨"x", rfl⟩,
   build_artifact_manifest _ ⟨"x", rfl⟩ ⟨"x", rfl⟩ ⟨"x", rfl⟩⟩

/-- C4: every successful build declares exactly one dependency,
`python-xlib`, and that entry carries no version constraint. -/
theorem install_requires_single_unconstrained (fs : FS) (args : SetupArgs)
    (h : build fs = .ok args) :
    args.install_requires = ["python-xlib"] ∧
    ∀ e ∈ args.install_requires, hasVersionConstraint e = false := by
  obtain ⟨c, _, rfl⟩ := build_ok_inv fs args h
  refine ⟨rfl, fun e he => ?_⟩
  simp only [setupArgsOf, List.mem_singleton] at he
  subst he
  decide

theorem install_requires_witness :
    build (fun _ => some "r") = .ok (setupArgsOf (mkLongDescriptions "r")) ∧
    ((setupArgsOf (mkLongDescriptions "r")).install_requires = ["python-xlib"] ∧
     ∀ e ∈ (setupArgsOf (mkLongDescriptions "r")).install_requires,
       hasVersionConstraint e = false) :=
  ⟨rfl, install_requires_single_unconstrained (fun _ => some "r") _ rfl⟩

/-- C5: the build raises a file-access error if and only if `README.rst`
cannot be opened and decoded as UTF-8 (modelled as the filesystem mapping
that name to `none`). -/
theorem build_error_iff_readme_unreadable (fs : FS) :
    build fs = .error (.fileNotReadable "README.rst") ↔
    fs "README.rst" = none := by
  cases h : fs "README.rst" <;> simp [build, h]

/-- C6: every successful build produces metadata with name `xpaste`,
version `1.6`, license `GPLv3+` and platforms `["linux"]`. -/
theorem metadata_literals (fs : FS) (args : SetupArgs)
    (h : build fs = .ok args) :
    args.name = "xpaste" ∧ args.version = "1.6" ∧
    args.license = "GPLv3+" ∧ args.platforms = ["linux"] := by
  obtain ⟨c, _, rfl⟩ := build_ok_inv fs args h
  exact ⟨rfl, rfl, rfl, rfl⟩

theorem metadata_literals_witness :
    build (fun _ => some "m") = .ok (setupArgsOf (mkLongDescriptions "m")) ∧
    ((setupArgsOf (mkLongDescriptions "m")).name = "xpaste" ∧
     (setupArgsOf (mkLongDescriptions "m")).version = "1.6" ∧
     (setupArgsOf (mkLongDescriptions "m")).license = "GPLv3+" ∧
     (setupArgsOf (mkLongDescriptions "m")).platforms = ["linux"]) :=
  ⟨rfl, metadata_literals (fun _ => some "m") _ rfl⟩

/-- C7: across any two build invocations, even with different readme
contents, the name and version fields coincide and are the literals
`xpaste` and `1.6` — they depend on no input. -/
theorem name_version_deterministic (fs₁ fs₂ : FS) (a₁ a₂ : SetupArgs)
    (h₁ : build fs₁ = .ok a₁) (h₂ : build fs₂ = .ok a₂) :
    a₁.name = a₂.name ∧ a₁.version = a₂.version ∧
    a₁.name = "xpaste" ∧ a₁.version = "1.6" := by
  obtain ⟨c₁, _, rfl⟩ := build_ok_inv fs₁ a₁ h₁
  obtain ⟨c₂, _, rfl⟩ := build_ok_inv fs₂ a₂ h₂
  exact ⟨rfl, rfl, rfl, rfl⟩

theorem name_version_deterministic_witness :
    build (fun _ => some "a") = .ok (setupArgsOf (mkLongDescriptions "a")) ∧
    build (fun _ => some "b") = .ok (setupArgsOf (mkLongDescriptions "b")) ∧
    ((setupArgsOf (mkLongDescriptions "a")).name =
       (setupArgsOf (mkLongDescriptions "b")).name ∧
     (setupArgsOf (mkLongDescriptions "a")).version =
       (setupArgsOf (mkLongDescriptions "b")).version ∧
     (setupArgsOf (mkLongDescriptions "a")).name = "xpaste" ∧
     (setupArgsOf (mkLongDescriptions "a")).version = "1.6") :=
  ⟨rfl, rfl,
   name_version_deterministic (fun _ => some "a") (fun _ => some "b") _ _ rfl rfl⟩

/-- C8: in every execution, every reachable state lying after the `with`
block — on the success path or the error path — holds no open handle to
`README.rst`: the file handle is released on completion and on failure. -/
theorem handle_released_past_block (fs : FS) (st : BuildSt)
    (h : Reachable fs st) (hp : PastBlock st.phase) :
    st.handleOpen = false := by
  unfold Reachable at h
  induction h with
  | refl => simp [PastBlock] at hp
  | tail _ hstep _ => cases hstep <;> first | rfl | simp [PastBlock] at hp

theorem handle_released_past_block_witness :
    Reachable (fun _ => none) ⟨.failed, false⟩ ∧
    PastBlock (BuildSt.mk .failed false).phase ∧
    (BuildSt.mk .failed false).handleOpen = false :=
  ⟨Relation.ReflTransGen.single (Step.openFail rfl), trivial,
   handle_released_past_block (fun _ => none) ⟨.failed, false⟩
     (Relation.ReflTransGen.single (Step.openFail rfl)) trivial⟩

/-- C9: the `long_descriptions` list passed to `setup` always has exactly
one element (a single append to the empty list), so the join result is
independent of the separator: the `'\n\n\n'` separator is never inserted
into the long description. -/
theorem long_descriptions_single_append (content : String) :
    (mkLongDescriptions content).length = 1 ∧
    ∀ sep : String,
      String.intercalate sep (mkLongDescriptions content) = content :=
  ⟨rfl, fun _ => rfl⟩

/-- C10: importing the module (not running it as the main program)
performs no file access and never invokes `setup`: the effect trace is
empty, leaving all external state unchanged. -/
theorem import_no_effects (fs : FS) :
    (runModule false fs).1 = [] ∧
    (∀ args, BuildEffect.callSetup args ∉ (runModule false fs).1) ∧
    (∀ n, BuildEffect.openFile n ∉ (runModule false fs).1 ∧
          BuildEffect.readFile n ∉ (runModule false fs).1) := by
  refine ⟨rfl, ?_, ?_⟩ <;> simp [runModule]

end XPaste
